import Mathlib

/-!
Verification of the Smart-Contract-Analyzer orchestration logic.

The definitions below are a shallow embedding of the two source files that
carry the logic of the repository:

- `src/services/apiService.ts` (`fetchContractFromEtherscan`,
  `analyzeContractWithGemini`);
- `src/App.tsx` (`handleAnalyze` and the state fields it mutates).

JavaScript strings are modelled by `String`, JavaScript `undefined` for an
optional string by `Option String`, thrown `Error` values by the `.error`
side of `Except String`, and the external services (the explorer HTTP call
and the Gemini call) by explicit environment records holding the responses
those services give back in one run.
-/

namespace ContractAnalyzer

/-! ### Embeddings of the JavaScript string primitives used by the source -/

/-- Embeds `String.prototype.toLowerCase` for a single character.  The
source only ever lowercases file names; non-ASCII case mappings are not
modelled. -/
def asciiToLower (c : Char) : Char :=
  if 65 ≤ c.toNat ∧ c.toNat ≤ 90 then Char.ofNat (c.toNat + 32) else c

/-- Embeds `String.prototype.toLowerCase` (used at `App.tsx` line 74). -/
def jsToLowerCase (s : String) : String :=
  String.mk (s.data.map asciiToLower)

/-- Bool-valued prefix test on character lists, used to embed the
JavaScript `startsWith` / `endsWith` string methods. -/
def listIsPrefixOfChars : List Char → List Char → Bool
  | [], _ => true
  | _ :: _, [] => false
  | a :: as, b :: bs => a == b && listIsPrefixOfChars as bs

/-- Embeds `String.prototype.startsWith` (used at `App.tsx` line 76). -/
def jsStartsWith (s pat : String) : Bool :=
  listIsPrefixOfChars pat.data s.data

/-- Embeds `String.prototype.endsWith` (used at `App.tsx` lines 76-83). -/
def jsEndsWith (s pat : String) : Bool :=
  listIsPrefixOfChars pat.data.reverse s.data.reverse

/-- Worker for `jsSplit`: splits at every occurrence of `sep`, keeping an
accumulator of the characters of the current field in reverse order. -/
def jsSplitAux (sep : Char) : List Char → List Char → List String
  | [], acc => [String.mk acc.reverse]
  | c :: cs, acc =>
    if c = sep then String.mk acc.reverse :: jsSplitAux sep cs []
    else jsSplitAux sep cs (c :: acc)

/-- Embeds `String.prototype.split` with a one-character separator (used at
`App.tsx` lines 81 and 85 as `dataUrl.split(',')`). -/
def jsSplit (s : String) (sep : Char) : List String :=
  jsSplitAux sep s.data []

/-- The ECMAScript white-space and line-terminator set stripped by
`String.prototype.trim`. -/
def jsWsChar (c : Char) : Bool :=
  c.toNat == 9 || c.toNat == 10 || c.toNat == 11 || c.toNat == 12 ||
  c.toNat == 13 || c.toNat == 32 || c.toNat == 160 || c.toNat == 5760 ||
  (decide (8192 ≤ c.toNat) && decide (c.toNat ≤ 8202)) ||
  c.toNat == 8232 || c.toNat == 8233 || c.toNat == 8239 ||
  c.toNat == 8287 || c.toNat == 12288 || c.toNat == 65279

/-- Drops leading white space from a character list. -/
def dropLeadingWs : List Char → List Char
  | [] => []
  | c :: cs => if jsWsChar c then dropLeadingWs cs else c :: cs

/-- Embeds `String.prototype.trim` (used at `apiService.ts` line 135). -/
def jsTrim (s : String) : String :=
  String.mk ((dropLeadingWs (dropLeadingWs s.data).reverse).reverse)

/-- Truthiness of a JavaScript string-or-undefined value: `undefined` and
the empty string are falsy (used for `process.env.API_KEY` and for
`fileType`). -/
def jsTruthy : Option String → Bool
  | none => false
  | some s => !(s == "")

/-- Template-literal rendering of a string-or-undefined value: `undefined`
interpolates as the text `undefined`. -/
def jsStr : Option String → String
  | some s => s
  | none => "undefined"

/-- Forgets the error of an `Except`, keeping only the success value. -/
def exceptToOption {ε α : Type} : Except ε α → Option α
  | .ok a => some a
  | .error _ => none

/-! ### A model of `JSON.parse`

`analyzeContractWithGemini` hands the response text to `JSON.parse` and
performs no further checks, so the embedding needs an executable JSON
parser.  Values are parsed into the `Json` tree below.  A numeric literal
is kept as its source text (its decoding to an IEEE double is irrelevant
to every claim); consecutive `\uXXXX` escapes are decoded one code unit at
a time, without UTF-16 surrogate pairing. -/

inductive Json where
  | null : Json
  | bool (b : Bool) : Json
  | num (lit : String) : Json
  | str (s : String) : Json
  | arr (items : List Json) : Json
  | obj (fields : List (String × Json)) : Json

/-- The opening-brace character. -/
def lbraceChar : Char := Char.ofNat 123

/-- The closing-brace character. -/
def rbraceChar : Char := Char.ofNat 125

/-- JSON insignificant white space (RFC 8259: space, tab, LF, CR). -/
def jsonWsChar (c : Char) : Bool :=
  c == ' ' || c == '\t' || c == '\n' || c == '\r'

/-- Drops leading JSON white space. -/
def skipWs : List Char → List Char
  | [] => []
  | c :: cs => if jsonWsChar c then skipWs cs else c :: cs

/-- The value of one hexadecimal digit. -/
def hexDigitVal (c : Char) : Option Nat :=
  if 48 ≤ c.toNat ∧ c.toNat ≤ 57 then some (c.toNat - 48)
  else if 97 ≤ c.toNat ∧ c.toNat ≤ 102 then some (c.toNat - 87)
  else if 65 ≤ c.toNat ∧ c.toNat ≤ 70 then some (c.toNat - 55)
  else none

/-- Parses the body of a JSON string, after the opening quote.  Returns the
decoded string and the input after the closing quote. -/
def parseStringBody (fuel : Nat) (acc : List Char) (cs : List Char) :
    Option (String × List Char) :=
  match fuel, cs with
  | 0, _ => none
  | _ + 1, [] => none
  | f + 1, c :: cs1 =>
    if c == '\"' then some (String.mk acc.reverse, cs1)
    else if c == '\\' then
      match cs1 with
      | [] => none
      | e :: cs2 =>
        if e == '\"' then parseStringBody f ('\"' :: acc) cs2
        else if e == '\\' then parseStringBody f ('\\' :: acc) cs2
        else if e == '/' then parseStringBody f ('/' :: acc) cs2
        else if e == 'b' then parseStringBody f (Char.ofNat 8 :: acc) cs2
        else if e == 'f' then parseStringBody f (Char.ofNat 12 :: acc) cs2
        else if e == 'n' then parseStringBody f ('\n' :: acc) cs2
        else if e == 'r' then parseStringBody f ('\r' :: acc) cs2
        else if e == 't' then parseStringBody f ('\t' :: acc) cs2
        else if e == 'u' then
          match cs2 with
          | h1 :: h2 :: h3 :: h4 :: cs3 =>
            match hexDigitVal h1, hexDigitVal h2, hexDigitVal h3, hexDigitVal h4 with
            | some a, some b, some c3, some d =>
              parseStringBody f (Char.ofNat (a * 4096 + b * 256 + c3 * 16 + d) :: acc) cs3
            | _, _, _, _ => none
          | _ => none
        else none
    else if c.toNat < 32 then none
    else parseStringBody f (c :: acc) cs1

/-- Decimal-digit test. -/
def isDigitChar (c : Char) : Bool := 48 ≤ c.toNat && c.toNat ≤ 57

/-- Takes the longest digit run off the front of the input. -/
def takeDigits : List Char → List Char × List Char
  | [] => ([], [])
  | c :: cs =>
    if isDigitChar c then
      let (ds, rest) := takeDigits cs
      (c :: ds, rest)
    else ([], c :: cs)

/-- Parses the optional exponent of a JSON number, given the literal text
accumulated so far. -/
def parseExpOpt (acc : List Char) (cs : List Char) : Option (String × List Char) :=
  match cs with
  | c :: rest =>
    if c == 'e' || c == 'E' then
      match rest with
      | s :: rest2 =>
        if s == '+' || s == '-' then
          match takeDigits rest2 with
          | ([], _) => none
          | (ds, rest3) => some (String.mk (acc ++ c :: s :: ds), rest3)
        else
          match takeDigits rest with
          | ([], _) => none
          | (ds, rest3) => some (String.mk (acc ++ c :: ds), rest3)
      | [] => none
    else some (String.mk acc, cs)
  | [] => some (String.mk acc, [])

/-- Parses the optional fraction and exponent of a JSON number. -/
def parseFracExp (acc : List Char) (cs : List Char) : Option (String × List Char) :=
  match cs with
  | c :: rest =>
    if c == '.' then
      match takeDigits rest with
      | ([], _) => none
      | (ds, rest2) => parseExpOpt (acc ++ c :: ds) rest2
    else parseExpOpt acc cs
  | [] => parseExpOpt acc []

/-- Parses a JSON number literal (RFC 8259 grammar: no leading zeros, no
leading plus). -/
def parseNumber (cs : List Char) : Option (String × List Char) :=
  match cs with
  | [] => none
  | c :: rest =>
    if c == '-' then
      match rest with
      | [] => none
      | d :: rest2 =>
        if d == '0' then parseFracExp [c, d] rest2
        else if isDigitChar d then
          match takeDigits rest2 with
          | (ds, rest3) => parseFracExp (c :: d :: ds) rest3
        else none
    else if c == '0' then parseFracExp [c] rest
    else if isDigitChar c then
      match takeDigits rest with
      | (ds, rest2) => parseFracExp (c :: ds) rest2
    else none

/-- Strips a fixed keyword off the front of the input, if present. -/
def stripKeyword : List Char → List Char → Option (List Char)
  | [], rest => some rest
  | k :: ks, c :: rest => if k == c then stripKeyword ks rest else none
  | _ :: _, [] => none

/-- The work items of the JSON parser: a value, the members of an object
after its opening brace or a comma, or the items of an array after its
opening bracket or a comma. -/
inductive ParseTask where
  | value (cs : List Char)
  | objFields (cs : List Char) (acc : List (String × Json))
  | arrItems (cs : List Char) (acc : List Json)

/-- One fuel-indexed step machine covering values, object members and
array items.  Call sites always present the scrutinised input with leading
white space already skipped. -/
def parseStep (fuel : Nat) (task : ParseTask) : Option (Json × List Char) :=
  match fuel with
  | 0 => none
  | f + 1 =>
    match task with
    | .value cs =>
      match stripKeyword ['t', 'r', 'u', 'e'] cs with
      | some rest => some (Json.bool true, rest)
      | none =>
      match stripKeyword ['f', 'a', 'l', 's', 'e'] cs with
      | some rest => some (Json.bool false, rest)
      | none =>
      match stripKeyword ['n', 'u', 'l', 'l'] cs with
      | some rest => some (Json.null, rest)
      | none =>
      match cs with
      | [] => none
      | c :: rest =>
        if c == '\"' then
          match parseStringBody (rest.length + 1) [] rest with
          | some (s, rest2) => some (Json.str s, rest2)
          | none => none
        else if c == lbraceChar then parseStep f (.objFields (skipWs rest) [])
        else if c == '[' then parseStep f (.arrItems (skipWs rest) [])
        else if c == '-' || isDigitChar c then
          match parseNumber cs with
          | some (lit, rest2) => some (Json.num lit, rest2)
          | none => none
        else none
    | .objFields cs acc =>
      match cs with
      | [] => none
      | c :: rest =>
        if c == rbraceChar then
          if acc.isEmpty then some (Json.obj [], rest) else none
        else if c == '\"' then
          match parseStringBody (rest.length + 1) [] rest with
          | none => none
          | some (k, rest2) =>
            match skipWs rest2 with
            | [] => none
            | c2 :: rest3 =>
              if c2 == ':' then
                match parseStep f (.value (skipWs rest3)) with
                | none => none
                | some (v, rest4) =>
                  match skipWs rest4 with
                  | [] => none
                  | c3 :: rest5 =>
                    if c3 == ',' then
                      parseStep f (.objFields (skipWs rest5) (acc ++ [(k, v)]))
                    else if c3 == rbraceChar then
                      some (Json.obj (acc ++ [(k, v)]), rest5)
                    else none
              else none
        else none
    | .arrItems cs acc =>
      match cs with
      | [] => none
      | c :: _ =>
        if c == ']' then
          match cs with
          | _ :: rest => if acc.isEmpty then some (Json.arr [], rest) else none
          | [] => none
        else
          match parseStep f (.value cs) with
          | none => none
          | some (v, rest2) =>
            match skipWs rest2 with
            | [] => none
            | c2 :: rest3 =>
              if c2 == ',' then parseStep f (.arrItems (skipWs rest3) (acc ++ [v]))
              else if c2 == ']' then some (Json.arr (acc ++ [v]), rest3)
              else none

/-- Embeds `JSON.parse`: a single JSON text, surrounded by nothing but
white space, or failure.  The fuel `2n + 2` dominates the recursion depth,
since at most two steps are taken per consumed input character. -/
def jsonParse (s : String) : Option Json :=
  match parseStep (2 * s.data.length + 2) (.value (skipWs s.data)) with
  | some (v, rest) => if (skipWs rest).isEmpty then some v else none
  | none => none

/-! ### The AnalysisResult shape of `src/types.ts`

The TypeScript code never checks this shape at run time (the cast at
`apiService.ts` line 136 is static only), so the predicate below is the
spec-side shape, written from the `AnalysisResult` interface of
`src/types.ts`, used to compare the validator against the claimed
behaviour. -/

/-- First binding of a key in a parsed object. -/
def jLookup (fields : List (String × Json)) (k : String) : Option Json :=
  match fields with
  | [] => none
  | (k2, v) :: rest => if k2 == k then some v else jLookup rest k

/-- The key is present and its value satisfies the given test. -/
def fieldIs (fields : List (String × Json)) (k : String) (p : Json → Bool) : Bool :=
  match jLookup fields k with
  | some v => p v
  | none => false

/-- The value is a JSON string. -/
def isJStr : Json → Bool
  | .str _ => true
  | _ => false

/-- The value is a JSON number. -/
def isJNum : Json → Bool
  | .num _ => true
  | _ => false

/-- The value is a JSON boolean. -/
def isJBool : Json → Bool
  | .bool _ => true
  | _ => false

/-- The value is one of the five severity literals of `types.ts`. -/
def isSeverityLit : Json → Bool
  | .str s =>
    s == "Critical" || s == "High" || s == "Medium" || s == "Low" ||
    s == "Informational"
  | _ => false

/-- The value has the `Vulnerability` shape of `types.ts`. -/
def conformsVulnerability : Json → Bool
  | .obj fs =>
    fieldIs fs "name" isJStr && fieldIs fs "severity" isSeverityLit &&
    fieldIs fs "description" isJStr
  | _ => false

/-- The value has the `Tokenomics` shape of `types.ts`. -/
def conformsTokenomics : Json → Bool
  | .obj fs =>
    fieldIs fs "analysis" isJStr && fieldIs fs "passedAuditStandards" isJBool
  | _ => false

/-- The value has the `RedFlag` shape of `types.ts`. -/
def conformsRedFlag : Json → Bool
  | .obj fs => fieldIs fs "flag" isJStr && fieldIs fs "description" isJStr
  | _ => false

/-- The value is a JSON array all of whose items satisfy the given test. -/
def isArrOf (p : Json → Bool) : Json → Bool
  | .arr xs => xs.all p
  | _ => false

/-- The value has the `AnalysisResult` shape of `types.ts`: all six fields
present and of the right types. -/
def conformsToAnalysisResult : Json → Bool
  | .obj fs =>
    fieldIs fs "score" isJNum && fieldIs fs "recommendation" isJStr &&
    fieldIs fs "summary" isJStr &&
    fieldIs fs "vulnerabilities" (isArrOf conformsVulnerability) &&
    fieldIs fs "tokenomics" conformsTokenomics &&
    fieldIs fs "exchangeRedFlags" (isArrOf conformsRedFlag)
  | _ => false

/-! ### `fetchContractFromEtherscan` (`apiService.ts` lines 5-32) -/

/-- The `result` field of the explorer JSON envelope, as the source code
distinguishes it: absent (or any other falsy non-string), a string, or an
array of objects each carrying an optional `SourceCode` string field. -/
inductive EtherscanResult where
  | absent
  | str (s : String)
  | arr (entries : List (Option String))
deriving DecidableEq, Repr

/-- One explorer HTTP response: the transport `ok` flag and status, and
the decoded JSON body fields the source reads (`status`, `result`). -/
structure EtherscanResponse where
  ok : Bool
  httpStatus : Nat
  status : Option String
  result : EtherscanResult
deriving DecidableEq, Repr

/-- JavaScript truthiness of the `result` field (`data.result || ...` at
`apiService.ts` line 18): absent and the empty string are falsy, every
array is truthy. -/
def resultTruthy : EtherscanResult → Bool
  | .absent => false
  | .str s => !(s == "")
  | .arr _ => true

/-- Template-literal rendering of the `result` field inside the error
message at `apiService.ts` line 19. -/
def resultDisplay : EtherscanResult → String
  | .absent => "undefined"
  | .str s => s
  | .arr entries => String.intercalate "," (entries.map fun _ => "[object Object]")

/-- Embeds `fetchContractFromEtherscan` (`apiService.ts` lines 5-32),
applied to the response of the explorer call: the four guard clauses in
source order, then the verbatim return of `result[0].SourceCode`. -/
def fetchContractFromEtherscan (r : EtherscanResponse) : Except String String :=
  if !r.ok then
    .error ("Failed to fetch from Etherscan API. Status: " ++ toString r.httpStatus)
  else if r.status = some "0" then
    .error ("Etherscan API Error: " ++
      (if resultTruthy r.result then resultDisplay r.result
       else "An unknown error occurred with the Etherscan API."))
  else
    match r.result with
    | .arr (some src :: _) =>
      if src = "" then
        .error "Contract source code is not verified or available on Etherscan."
      else .ok src
    | .arr (none :: _) =>
      .error "Contract source code is not verified or available on Etherscan."
    | _ => .error "Etherscan API returned an unexpected or empty response format."

/-! ### `analyzeContractWithGemini` (`apiService.ts` lines 34-142) -/

/-- The whitepaper payload built by `App.tsx` lines 70-90.  The `data`
field is an `Option` because the base64 branches store
`dataUrl.split(',')[1]`, which is `undefined` in JavaScript when the data
URL contains no comma. -/
structure WhitepaperPayload where
  data : Option String
  mimeType : String
  isText : Bool
deriving DecidableEq, Repr

/-- One part of the multi-part Gemini request (`apiService.ts` lines
59-78): a text part or an inline-data attachment. -/
inductive Part where
  | text (s : String)
  | inlineData (data : Option String) (mimeType : String)
deriving DecidableEq, Repr

/-- The fixed instruction block (`apiService.ts` lines 44-57), verbatim. -/
def promptIntro : String :=
  "\n    Analyze the following smart contract code and optional project white paper.\n\n    Perform a comprehensive audit and provide the output ONLY in the specified JSON format.\n\n    **Analysis requirements:**\n    1.  **Vulnerability Scan:** Analyze the code for common vulnerabilities (reentrancy, overflows, access control, etc.). List each, its severity (Critical, High, Medium, Low), and an explanation.\n    2.  **Tokenomics Analysis:** Evaluate the tokenomics (supply, distribution, vesting). Assess if the structure is sound.\n    3.  **Exchange Red Flags:** Identify red flags for exchanges (honeypot, rug pull potential, centralization).\n    4.  **Overall Summary & Investment Thesis:** Summarize findings and give a clear investment recommendation from a technical perspective.\n    5.  **Safety Score:** Provide a safety score from 0 (extremely risky) to 100 (very secure).\n    \n    Here is the smart contract:\n  "

/-- Embeds the part assembly of `apiService.ts` lines 59-78: the
instruction part, the code-fenced contract part, then exactly one of the
three whitepaper alternatives. -/
def buildParts (contractCode : String) (whitepaper : Option WhitepaperPayload) :
    List Part :=
  [Part.text promptIntro,
   Part.text ("```solidity\n" ++ contractCode ++ "\n```")] ++
    (match whitepaper with
     | some w =>
       if w.isText then
         [Part.text ("Here is the whitepaper content:\n\n" ++ jsStr w.data)]
       else
         [Part.text "Here is the whitepaper file for analysis:",
          Part.inlineData w.data w.mimeType]
     | none => [Part.text "No whitepaper was provided."])

/-- The user-visible message thrown when the response fails to parse
(`apiService.ts` line 140). -/
def invalidResponseMessage : String :=
  "AI failed to return a valid analysis. Please try again."

/-- Result of the response-handling block: the returned value or thrown
error, and the arguments passed to `console.error`. -/
structure ValidationOutcome where
  result : Except String Json
  log : List String

/-- Embeds the try/catch at `apiService.ts` lines 134-141: trim the
response text, `JSON.parse` it, and return the parsed value unchanged; on
parse failure, log the raw text and throw the fixed message. -/
def validateResponse (text : String) : ValidationOutcome :=
  match jsonParse (jsTrim text) with
  | some v => { result := .ok v, log := [] }
  | none =>
    { result := .error invalidResponseMessage,
      log := ["Failed to parse Gemini response:", text] }

/-- Result of one run of `analyzeContractWithGemini`: the returned value
or thrown error, the parts of the Gemini request if one was sent
(`none` when no external call was made), and the console log. -/
structure GeminiRun where
  result : Except String Json
  callParts : Option (List Part)
  log : List String

/-- Embeds `analyzeContractWithGemini` (`apiService.ts` lines 34-142).
The external call is modelled by `aiRejects` (a transport rejection and
its message) and `aiResponseText` (the `response.text` on transport
success). -/
def analyzeContractWithGemini (apiKey : Option String) (contractCode : String)
    (whitepaper : Option WhitepaperPayload) (aiRejects : Option String)
    (aiResponseText : String) : GeminiRun :=
  if !(jsTruthy apiKey) then
    { result := .error "API_KEY environment variable not set",
      callParts := none, log := [] }
  else
    let parts := buildParts contractCode whitepaper
    match aiRejects with
    | some m => { result := .error m, callParts := some parts, log := [] }
    | none =>
      let vo := validateResponse aiResponseText
      { result := vo.result, callParts := some parts, log := vo.log }

/-! ### `handleAnalyze` (`App.tsx` lines 51-106) -/

/-- A user-selected file as the browser hands it to the code: its name,
its declared MIME type (`file.type`, the empty string when undeclared),
and the two decodings the `fileReader` helper can produce for it.  Read
failures reject with a non-`Error` event and are not modelled; the
environment supplies the decoded contents directly. -/
structure JsFile where
  name : String
  type : String
  textContent : String
  dataUrl : String
deriving DecidableEq, Repr

/-- The contract-input toggle of `types.ts` (`InputType`). -/
inductive InputType where
  | address
  | file
deriving DecidableEq, Repr

/-- The OOXML word-processing MIME type (`App.tsx` lines 83 and 86). -/
def docxMime : String :=
  "application/vnd.openxmlformats-officedocument.wordprocessingml.document"

/-- The text-class condition of `App.tsx` line 76: `.txt` or `.md`
extension on the lowercased name, or a declared MIME type beginning with
`text/`. -/
def isTextWp (f : JsFile) : Bool :=
  jsEndsWith (jsToLowerCase f.name) ".txt" ||
  jsEndsWith (jsToLowerCase f.name) ".md" ||
  jsStartsWith f.type "text/"

/-- The PDF condition of `App.tsx` line 79. -/
def isPdfWp (f : JsFile) : Bool :=
  jsEndsWith (jsToLowerCase f.name) ".pdf" || f.type == "application/pdf"

/-- The DOCX condition of `App.tsx` line 83. -/
def isDocxWp (f : JsFile) : Bool :=
  jsEndsWith (jsToLowerCase f.name) ".docx" || f.type == docxMime

/-- Embeds the whitepaper branch of `App.tsx` lines 70-90: no file gives
no payload; otherwise the three classification branches in source order,
or the unsupported-type error naming the file. -/
def buildWhitepaperPayload (whitepaperFile : Option JsFile) :
    Except String (Option WhitepaperPayload) :=
  match whitepaperFile with
  | none => .ok none
  | some f =>
    if isTextWp f then
      .ok (some { data := some f.textContent,
                  mimeType := if f.type = "" then "text/plain" else f.type,
                  isText := true })
    else if isPdfWp f then
      .ok (some { data := (jsSplit f.dataUrl ',')[1]?,
                  mimeType := "application/pdf", isText := false })
    else if isDocxWp f then
      .ok (some { data := (jsSplit f.dataUrl ',')[1]?,
                  mimeType := docxMime, isText := false })
    else
      .error ("Unsupported whitepaper file type: " ++ f.name ++
              ". Please use PDF, DOCX, TXT, or MD.")

/-- The character class `[a-fA-F0-9]` of the address pattern. -/
def isHexCharJs (c : Char) : Bool :=
  (decide ('a' ≤ c) && decide (c ≤ 'f')) ||
  (decide ('A' ≤ c) && decide (c ≤ 'F')) ||
  (decide ('0' ≤ c) && decide (c ≤ '9'))

/-- Embeds the test `contractAddress.match(/^0x[a-fA-F0-9]\x7b40\x7d$/)` of
`App.tsx` line 59: the whole string is `0x` followed by exactly forty
hexadecimal characters. -/
def addressRegexMatch (s : String) : Bool :=
  match s.data with
  | c1 :: c2 :: rest =>
    c1 == '0' && c2 == 'x' && rest.length == 40 && rest.all isHexCharJs
  | _ => false

/-- Outcome of the address branch before any network traffic: either the
validation error thrown at `App.tsx` line 60, or the explorer invocation
of line 63 carrying the address it is invoked with. -/
inductive ResolveOutcome where
  | invalidInput (message : String)
  | explorerCall (address : String)
deriving DecidableEq, Repr

/-- Embeds `App.tsx` lines 58-63: the ADDRESS-mode gate.  No constructor
of the `invalidInput` outcome carries an explorer invocation, so the
failing branch issues no network call. -/
def sourceResolverAddress (addr : String) : ResolveOutcome :=
  if !(addressRegexMatch addr) then
    .invalidInput "Please enter a valid Ethereum address."
  else .explorerCall addr

/-- The external world of one submission: what `fetch` does for the
explorer call (a rejection message, or a response), the `API_KEY`
environment variable, and what the Gemini call does (a rejection message,
or a response text). -/
structure Env where
  fetchRejects : Option String
  explorer : EtherscanResponse
  apiKey : Option String
  aiRejects : Option String
  aiResponseText : String

/-- The form fields read by `handleAnalyze` (`App.tsx` lines 24-27). -/
structure FormInput where
  inputType : InputType
  contractAddress : String
  contractFile : Option JsFile
  whitepaperFile : Option JsFile

/-- The four state fields `handleAnalyze` mutates (`App.tsx` lines
28-31). -/
structure AppState where
  isLoading : Bool
  loadingMessage : String
  error : Option String
  result : Option Json

/-- Embeds `App.tsx` lines 56-68: contract source from the explorer in
ADDRESS mode (after the pattern gate) or from the uploaded file in FILE
mode. -/
def resolveSource (inp : FormInput) (env : Env) : Except String String :=
  match inp.inputType with
  | .address =>
    match sourceResolverAddress inp.contractAddress with
    | .invalidInput m => .error m
    | .explorerCall _ =>
      match env.fetchRejects with
      | some m => .error m
      | none => fetchContractFromEtherscan env.explorer
  | .file =>
    match inp.contractFile with
    | none => .error "Please upload a contract file."
    | some f => .ok f.textContent

/-- Embeds the body of the `try` block of `handleAnalyze` (`App.tsx`
lines 56-94): resolve the source, build the whitepaper payload, run the
Gemini call; the first thrown error aborts the block. -/
def runTryBlock (inp : FormInput) (env : Env) : Except String Json :=
  match resolveSource inp env with
  | .error m => .error m
  | .ok contractCode =>
    match buildWhitepaperPayload inp.whitepaperFile with
    | .error m => .error m
    | .ok wp =>
      (analyzeContractWithGemini env.apiKey contractCode wp env.aiRejects
        env.aiResponseText).result

/-- The parts of the Gemini request sent during one run of the `try`
block, `none` when no request reached the AI capability. -/
def geminiCallParts (inp : FormInput) (env : Env) : Option (List Part) :=
  match resolveSource inp env with
  | .error _ => none
  | .ok contractCode =>
    match buildWhitepaperPayload inp.whitepaperFile with
    | .error _ => none
    | .ok wp =>
      (analyzeContractWithGemini env.apiKey contractCode wp env.aiRejects
        env.aiResponseText).callParts

/-- The three state updates at the top of `handleAnalyze` (`App.tsx`
lines 52-54): loading on, prior error and result cleared. -/
def submitEntry (s : AppState) : AppState :=
  { s with isLoading := true, error := none, result := none }

/-- Embeds one full run of `handleAnalyze` (`App.tsx` lines 51-106): the
entry updates, the `try` block, the `catch` clause storing the thrown
message, and the `finally` clause turning loading off and clearing the
phase label. -/
def handleAnalyze (init : AppState) (inp : FormInput) (env : Env) : AppState :=
  let s := submitEntry init
  match runTryBlock inp env with
  | .ok v => { s with result := some v, isLoading := false, loadingMessage := "" }
  | .error m => { s with error := some m, isLoading := false, loadingMessage := "" }

/-! ### Concrete scenario inputs used by witnesses and counterexamples -/

/-- The end-to-end scenario form input of the spec: ADDRESS mode with the
all-ones address and no files. -/
def e2eInput : FormInput :=
  { inputType := .address,
    contractAddress := "0x1111111111111111111111111111111111111111",
    contractFile := none, whitepaperFile := none }

/-- The end-to-end scenario environment: the explorer returns the verified
source `contract A\x7b\x7d`, a credential is present, and the AI answers
`null`. -/
def e2eEnv : Env :=
  { fetchRejects := none,
    explorer := { ok := true, httpStatus := 200, status := some "1",
                  result := .arr [some "contract A\x7b\x7d"] },
    apiKey := some "key", aiRejects := none, aiResponseText := "null" }

/-- A stale state left over from an earlier submission. -/
def staleState : AppState :=
  { isLoading := false, loadingMessage := "old phase",
    error := some "old error", result := some Json.null }

/-- A form input holding a malformed address. -/
def badAddressInput : FormInput :=
  { inputType := .address, contractAddress := "0x12345",
    contractFile := none, whitepaperFile := none }

/-- An explorer response with a verified contract. -/
def respVerified : EtherscanResponse :=
  { ok := true, httpStatus := 200, status := some "1",
    result := .arr [some "contract Demo"] }

/-- An explorer response reporting an API-level error. -/
def respRateLimited : EtherscanResponse :=
  { ok := true, httpStatus := 200, status := some "0",
    result := .str "rate limited" }

/-- An explorer response for an unverified contract. -/
def respUnverified : EtherscanResponse :=
  { ok := true, httpStatus := 200, status := some "1", result := .arr [some ""] }

/-- An unsupported whitepaper file. -/
def fileDocXyz : JsFile :=
  { name := "doc.xyz", type := "", textContent := "", dataUrl := "" }

/-- A plain-text whitepaper file with no declared MIME type. -/
def fileDocTxt : JsFile :=
  { name := "doc.txt", type := "", textContent := "hello world", dataUrl := "" }

/-- A PDF whitepaper file. -/
def fileReportPdf : JsFile :=
  { name := "report.pdf", type := "application/pdf", textContent := "",
    dataUrl := "data:application/pdf;base64,QUJD" }

/-- A PDF whitepaper file with an upper-case name and no declared type. -/
def fileReportPdfUpper : JsFile :=
  { name := "REPORT.PDF", type := "", textContent := "",
    dataUrl := "data:application/pdf;base64,QQ==" }

/-- An extension-less file with an upper-cased PDF MIME type. -/
def fileUpperMime : JsFile :=
  { name := "a.xyz", type := "APPLICATION/PDF", textContent := "",
    dataUrl := "d,QQ" }

/-- An extension-less file with the exact PDF MIME type. -/
def fileLowerMime : JsFile :=
  { name := "a.xyz", type := "application/pdf", textContent := "",
    dataUrl := "d,QQ" }

/-- A text whitepaper payload fixture. -/
def wpTextPayload : WhitepaperPayload :=
  { data := some "wp text", mimeType := "text/plain", isText := true }

/-! ### Helper lemmas -/

/-- `Char.ofNat` round-trips on code points below the surrogate range. -/
theorem charToNat_ofNat_lt {n : Nat} (h : n < 55296) : (Char.ofNat n).toNat = n := by
  have hv : Char.isValidCharNat n := Or.inl h
  rw [Char.ofNat, dif_pos hv]
  simp [Char.ofNatAux, Char.toNat, UInt32.toNat, UInt32.ofNat']

/-- Lowercasing a character twice is the same as lowercasing it once. -/
theorem asciiToLower_idem (c : Char) : asciiToLower (asciiToLower c) = asciiToLower c := by
  unfold asciiToLower
  by_cases h : 65 ≤ c.toNat ∧ c.toNat ≤ 90
  · rw [if_pos h]
    have ht : (Char.ofNat (c.toNat + 32)).toNat = c.toNat + 32 :=
      charToNat_ofNat_lt (by omega)
    rw [if_neg (by omega)]
  · rw [if_neg h, if_neg h]

/-- Lowercasing a string twice is the same as lowercasing it once. -/
theorem jsToLowerCase_idem (s : String) :
    jsToLowerCase (jsToLowerCase s) = jsToLowerCase s := by
  simp [jsToLowerCase, List.map_map, Function.comp_def, asciiToLower_idem]

/-- Splitting input that contains no separator yields one field. -/
theorem jsSplitAux_no_sep (sep : Char) (l : List Char) (acc : List Char)
    (h : ∀ c ∈ l, c ≠ sep) :
    jsSplitAux sep l acc = [String.mk (acc.reverse ++ l)] := by
  induction l generalizing acc with
  | nil => simp [jsSplitAux]
  | cons c cs ih =>
    have hc : c ≠ sep := h c (by simp)
    rw [jsSplitAux, if_neg hc, ih (c :: acc) fun x hx => h x (by simp [hx])]
    simp

/-- Splitting at the first separator occurrence detaches the first field. -/
theorem jsSplitAux_first_sep (sep : Char) (l r : List Char) (acc : List Char)
    (h : ∀ c ∈ l, c ≠ sep) :
    jsSplitAux sep (l ++ sep :: r) acc =
      String.mk (acc.reverse ++ l) :: jsSplitAux sep r [] := by
  induction l generalizing acc with
  | nil => simp [jsSplitAux]
  | cons c cs ih =>
    have hc : c ≠ sep := h c (by simp)
    rw [List.cons_append, jsSplitAux, if_neg hc,
      ih (c :: acc) fun x hx => h x (by simp [hx])]
    simp

/-- A well-formed data URL, whose metadata prefix and base64 payload are
both comma-free, splits at the comma into exactly those two pieces. -/
theorem jsSplit_data_url (pre rest : String)
    (h1 : ∀ c ∈ pre.data, c ≠ ',') (h2 : ∀ c ∈ rest.data, c ≠ ',') :
    jsSplit (pre ++ "," ++ rest) ',' = [pre, rest] := by
  have hdata : (pre ++ "," ++ rest).data = pre.data ++ ',' :: rest.data := by
    simp [String.data_append]
  rw [jsSplit, hdata, jsSplitAux_first_sep ',' pre.data rest.data [] h1,
    jsSplitAux_no_sep ',' rest.data [] h2]
  simp

/-- The text-class condition does not change when the file name is
replaced by its lowercased form. -/
theorem isTextWp_lowerName (f : JsFile) :
    isTextWp { f with name := jsToLowerCase f.name } = isTextWp f := by
  simp [isTextWp, jsToLowerCase_idem]

/-- The PDF condition does not change when the file name is replaced by
its lowercased form. -/
theorem isPdfWp_lowerName (f : JsFile) :
    isPdfWp { f with name := jsToLowerCase f.name } = isPdfWp f := by
  simp [isPdfWp, jsToLowerCase_idem]

/-- The DOCX condition does not change when the file name is replaced by
its lowercased form. -/
theorem isDocxWp_lowerName (f : JsFile) :
    isDocxWp { f with name := jsToLowerCase f.name } = isDocxWp f := by
  simp [isDocxWp, jsToLowerCase_idem]

/-! ### Claim theorems -/

/-- C2: a string passes the ADDRESS-mode gate exactly when it is `0x`
followed by exactly forty hexadecimal characters; every other string makes
the Source Resolver fail with the invalid-address error, through an
outcome that carries no explorer invocation and independently of the
network environment, while every matching string leads to an explorer
invocation with that address. -/
theorem C2_address_gate : ∀ s : String,
    (addressRegexMatch s = true ↔
      ∃ t : List Char, s.data = '0' :: 'x' :: t ∧ t.length = 40 ∧
        ∀ c ∈ t, isHexCharJs c = true) ∧
    (addressRegexMatch s = false →
      sourceResolverAddress s =
        ResolveOutcome.invalidInput "Please enter a valid Ethereum address.") ∧
    (addressRegexMatch s = true →
      sourceResolverAddress s = ResolveOutcome.explorerCall s) ∧
    (∀ (cf wf : Option JsFile) (env : Env), addressRegexMatch s = false →
      resolveSource { inputType := .address, contractAddress := s,
                      contractFile := cf, whitepaperFile := wf } env =
        .error "Please enter a valid Ethereum address.") := by
  intro s
  refine ⟨?_, ?_, ?_, ?_⟩
  · constructor
    · intro h
      unfold addressRegexMatch at h
      rcases hd : s.data with _ | ⟨c1, _ | ⟨c2, rest⟩⟩ <;> rw [hd] at h
      · simp at h
      · simp at h
      · simp only [Bool.and_eq_true, beq_iff_eq, List.all_eq_true] at h
        obtain ⟨⟨⟨h1, h2⟩, h3⟩, h4⟩ := h
        subst h1; subst h2
        exact ⟨rest, rfl, by simpa using h3, h4⟩
    · rintro ⟨t, ht, hlen, hall⟩
      unfold addressRegexMatch
      rw [ht]
      simp [hlen, List.all_eq_true]
      exact hall
  · intro h
    simp [sourceResolverAddress, h]
  · intro h
    simp [sourceResolverAddress, h]
  · intro cf wf env h
    simp [resolveSource, sourceResolverAddress, h]

/-- C2 witness: the all-ones address passes the gate and reaches the
explorer; a short string fails with the invalid-address error. -/
theorem C2_witness :
    addressRegexMatch "0x1111111111111111111111111111111111111111" = true ∧
    sourceResolverAddress "0x1111111111111111111111111111111111111111" =
      ResolveOutcome.explorerCall "0x1111111111111111111111111111111111111111" ∧
    sourceResolverAddress "0x12345" =
      ResolveOutcome.invalidInput "Please enter a valid Ethereum address." :=
  ⟨by decide,
   (C2_address_gate "0x1111111111111111111111111111111111111111").2.2.1 (by decide),
   (C2_address_gate "0x12345").2.1 (by decide)⟩

/-- C3: the explorer lookup succeeds exactly when the transport is ok, the
status flag is not the string `0`, and the result is a non-empty array
whose first entry carries a non-empty `SourceCode`; it then returns that
text verbatim.  When the status flag is `0` and the result is a non-empty
message string, that message is surfaced inside the error. -/
theorem C3_explorer_errors : ∀ r : EtherscanResponse,
    ((∃ src, fetchContractFromEtherscan r = .ok src) ↔
      (r.ok = true ∧ r.status ≠ some "0" ∧
        ∃ src rest, r.result = .arr (some src :: rest) ∧ src ≠ "")) ∧
    (∀ src rest, r.ok = true → r.status ≠ some "0" →
      r.result = .arr (some src :: rest) → src ≠ "" →
      fetchContractFromEtherscan r = .ok src) ∧
    (∀ m, r.ok = true → r.status = some "0" → r.result = .str m → m ≠ "" →
      fetchContractFromEtherscan r = .error ("Etherscan API Error: " ++ m)) := by
  intro r
  obtain ⟨ok, hs, st, res⟩ := r
  refine ⟨?_, ?_, ?_⟩
  · cases ok
    · simp [fetchContractFromEtherscan]
    · by_cases hst : st = some "0"
      · simp [fetchContractFromEtherscan, hst]
      · rcases res with _ | s | (_ | ⟨(_ | src), rest⟩) <;>
          simp [fetchContractFromEtherscan, hst]
        by_cases hz : src = "" <;> simp [hz]
  · intro src rest hok hst hres hz
    subst hres
    cases ok
    · exact absurd hok (by simp)
    · simp [fetchContractFromEtherscan, hst, hz]
  · intro m hok hst hres hz
    subst hres
    subst hst
    cases ok
    · exact absurd hok (by simp)
    · simp [fetchContractFromEtherscan, resultTruthy, resultDisplay, hz]

/-- C3 witness: a verified response returns its source verbatim; a
status-0 response surfaces the rate-limited message; an empty source field
reports the unverified error. -/
theorem C3_witness :
    fetchContractFromEtherscan respVerified = .ok "contract Demo" ∧
    fetchContractFromEtherscan respRateLimited =
      .error ("Etherscan API Error: " ++ "rate limited") ∧
    fetchContractFromEtherscan respUnverified =
      .error "Contract source code is not verified or available on Etherscan." :=
  ⟨(C3_explorer_errors respVerified).2.1 "contract Demo" [] rfl (by decide)
      rfl (by decide),
   (C3_explorer_errors respRateLimited).2.2 "rate limited" rfl rfl rfl (by decide),
   rfl⟩

/-- C4: the whitepaper builder classifies by the text condition first,
then PDF, then DOCX, each condition being extension-or-declared-MIME, and
fails with the unsupported-type error naming the offending filename when
none of the three match. -/
theorem C4_whitepaper_classification : ∀ f : JsFile,
    (isTextWp f = true → buildWhitepaperPayload (some f) =
      .ok (some { data := some f.textContent,
                  mimeType := if f.type = "" then "text/plain" else f.type,
                  isText := true })) ∧
    (isTextWp f = false → isPdfWp f = true → buildWhitepaperPayload (some f) =
      .ok (some { data := (jsSplit f.dataUrl ',')[1]?,
                  mimeType := "application/pdf", isText := false })) ∧
    (isTextWp f = false → isPdfWp f = false → isDocxWp f = true →
      buildWhitepaperPayload (some f) =
        .ok (some { data := (jsSplit f.dataUrl ',')[1]?, mimeType := docxMime,
                    isText := false })) ∧
    (isTextWp f = false → isPdfWp f = false → isDocxWp f = false →
      buildWhitepaperPayload (some f) =
        .error ("Unsupported whitepaper file type: " ++ f.name ++
                ". Please use PDF, DOCX, TXT, or MD.")) := by
  intro f
  refine ⟨fun h1 => ?_, fun h1 h2 => ?_, fun h1 h2 h3 => ?_, fun h1 h2 h3 => ?_⟩ <;>
    simp [buildWhitepaperPayload, *]

/-- C4 witness: a file named `doc.xyz` with no recognized MIME type is
rejected with an error naming `doc.xyz`. -/
theorem C4_witness :
    buildWhitepaperPayload (some fileDocXyz) =
      .error ("Unsupported whitepaper file type: " ++ "doc.xyz" ++
              ". Please use PDF, DOCX, TXT, or MD.") :=
  (C4_whitepaper_classification fileDocXyz).2.2.2 rfl rfl rfl

/-- C6: a text-class whitepaper yields `isText = true`, the decoded text
verbatim, and the declared MIME type or `text/plain` when none is
declared; a PDF-class whitepaper whose data URL is well formed yields
`isText = false`, MIME `application/pdf`, and exactly the payload after
the first comma of the data URL. -/
theorem C6_payload_contents : ∀ f : JsFile,
    (isTextWp f = true → buildWhitepaperPayload (some f) =
      .ok (some { data := some f.textContent,
                  mimeType := if f.type = "" then "text/plain" else f.type,
                  isText := true })) ∧
    (∀ pre rest : String, isTextWp f = false → isPdfWp f = true →
      f.dataUrl = pre ++ "," ++ rest →
      (∀ c ∈ pre.data, c ≠ ',') → (∀ c ∈ rest.data, c ≠ ',') →
      buildWhitepaperPayload (some f) =
        .ok (some { data := some rest, mimeType := "application/pdf",
                    isText := false })) := by
  intro f
  constructor
  · intro h1
    simp [buildWhitepaperPayload, h1]
  · intro pre rest h1 h2 hurl hp hr
    simp [buildWhitepaperPayload, h1, h2, hurl, jsSplit_data_url pre rest hp hr]

/-- C6 witness: `doc.txt` with no declared type yields its text verbatim
under `text/plain`; `report.pdf` yields the base64 payload with the
data-URL prefix stripped. -/
theorem C6_witness :
    buildWhitepaperPayload (some fileDocTxt) =
      .ok (some { data := some "hello world", mimeType := "text/plain",
                  isText := true }) ∧
    buildWhitepaperPayload (some fileReportPdf) =
      .ok (some { data := some "QUJD", mimeType := "application/pdf",
                  isText := false }) := by
  constructor
  · have h := (C6_payload_contents fileDocTxt).1 rfl
    simpa using h
  · exact (C6_payload_contents fileReportPdf).2 "data:application/pdf;base64"
      "QUJD" rfl rfl (by decide) (by decide) (by decide)

/-- C1 counterexample: the response text consisting of an empty JSON
object parses, so the code returns it as the analysis result even though
it conforms to none of the six required fields of the `AnalysisResult`
shape; the claimed missing-field validation does not happen. -/
theorem C1_counterexample :
    (validateResponse "\x7b\x7d").result = .ok (Json.obj []) ∧
    conformsToAnalysisResult (Json.obj []) = false :=
  ⟨rfl, rfl⟩

/-- C1 (amended): the validator trims the response text and parses it; on
parse failure it fails with the fixed invalid-response error and returns
nothing, and on parse success it returns the parsed value unchanged, with
no further structural validation. -/
theorem C1_parse_only : ∀ text : String,
    (jsonParse (jsTrim text) = none →
      (validateResponse text).result = .error invalidResponseMessage) ∧
    (∀ v, jsonParse (jsTrim text) = some v →
      (validateResponse text).result = .ok v) := by
  intro t
  constructor
  · intro h
    simp [validateResponse, h]
  · intro v h
    simp [validateResponse, h]

/-- C1 witness: an unparseable text fails with the fixed message, and the
text `null` is returned as the parsed JSON null. -/
theorem C1_witness :
    (validateResponse "broken").result = .error invalidResponseMessage ∧
    (validateResponse "null").result = .ok Json.null :=
  ⟨(C1_parse_only "broken").1 rfl, (C1_parse_only "null").2 Json.null rfl⟩

/-- C5 counterexample: in the end-to-end no-whitepaper scenario the AI is
called with a request of three parts, not two: the instruction part, the
code-fenced contract part, and the no-whitepaper marker part. -/
theorem C5_counterexample :
    (geminiCallParts e2eInput e2eEnv).map List.length = some 3 ∧
    (geminiCallParts e2eInput e2eEnv).map List.length ≠ some 2 := by
  constructor
  · rfl
  · decide

/-- C5 (amended): the request parts are ordered instruction part first,
then the code-fenced contract part, then exactly one of the three
whitepaper alternatives; with no whitepaper the explicit marker is
emitted, and the end-to-end no-whitepaper scenario calls the AI with the
three-part request and zero whitepaper parts. -/
theorem C5_parts_order : (∀ (code : String) (wp : Option WhitepaperPayload),
    (buildParts code wp).take 2 =
      [Part.text promptIntro, Part.text ("```solidity\n" ++ code ++ "\n```")] ∧
    (wp = none →
      (buildParts code wp).drop 2 = [Part.text "No whitepaper was provided."]) ∧
    (∀ w, wp = some w → w.isText = true →
      (buildParts code wp).drop 2 =
        [Part.text ("Here is the whitepaper content:\n\n" ++ jsStr w.data)]) ∧
    (∀ w, wp = some w → w.isText = false →
      (buildParts code wp).drop 2 =
        [Part.text "Here is the whitepaper file for analysis:",
         Part.inlineData w.data w.mimeType])) ∧
    geminiCallParts e2eInput e2eEnv =
      some [Part.text promptIntro,
            Part.text "```solidity\ncontract A\x7b\x7d\n```",
            Part.text "No whitepaper was provided."] := by
  constructor
  · intro code wp
    refine ⟨?_, ?_, ?_, ?_⟩
    · cases wp <;> simp [buildParts]
    · rintro rfl
      simp [buildParts]
    · rintro w rfl hw
      simp [buildParts, hw]
    · rintro w rfl hw
      simp [buildParts, hw]
  · rfl

/-- C5 witness: the no-whitepaper marker and the text-whitepaper part,
each produced at a concrete input. -/
theorem C5_witness :
    (buildParts "contract Demo" none).drop 2 =
      [Part.text "No whitepaper was provided."] ∧
    (buildParts "contract Demo" (some wpTextPayload)).drop 2 =
      [Part.text ("Here is the whitepaper content:\n\n" ++ jsStr (some "wp text"))] :=
  ⟨(C5_parts_order.1 "contract Demo" none).2.1 rfl,
   (C5_parts_order.1 "contract Demo" (some wpTextPayload)).2.2.1
     wpTextPayload rfl rfl⟩

/-- C7: entering the submit workflow clears the prior error and result
and turns loading on; every run ends with loading off and an empty phase
label; a failing run ends in the failed state holding exactly the thrown
message with the result still cleared; a successful run ends holding the
result with the error cleared; error and result are never both set. -/
theorem C7_orchestrator_invariants :
    ∀ (init : AppState) (inp : FormInput) (env : Env),
    (submitEntry init).error = none ∧
    (submitEntry init).result = none ∧
    (submitEntry init).isLoading = true ∧
    (handleAnalyze init inp env).isLoading = false ∧
    (handleAnalyze init inp env).loadingMessage = "" ∧
    (∀ m, runTryBlock inp env = .error m →
      handleAnalyze init inp env =
        { isLoading := false, loadingMessage := "",
          error := some m, result := none }) ∧
    (∀ v, runTryBlock inp env = .ok v →
      handleAnalyze init inp env =
        { isLoading := false, loadingMessage := "",
          error := none, result := some v }) ∧
    ((handleAnalyze init inp env).error = none ∨
      (handleAnalyze init inp env).result = none) := by
  intro init inp env
  refine ⟨rfl, rfl, rfl, ?_, ?_, ?_, ?_, ?_⟩ <;>
    cases h : runTryBlock inp env <;>
      simp [handleAnalyze, submitEntry, h]

/-- C7 witness: starting from a stale state, a run failing address
validation ends loading-off with exactly that message and no result, and
the entry state has error and result cleared. -/
theorem C7_witness :
    (submitEntry staleState).error = none ∧
    (submitEntry staleState).result = none ∧
    handleAnalyze staleState badAddressInput e2eEnv =
      { isLoading := false, loadingMessage := "",
        error := some "Please enter a valid Ethereum address.",
        result := none } :=
  ⟨(C7_orchestrator_invariants staleState badAddressInput e2eEnv).1,
   (C7_orchestrator_invariants staleState badAddressInput e2eEnv).2.1,
   (C7_orchestrator_invariants staleState badAddressInput e2eEnv).2.2.2.2.2.1
     "Please enter a valid Ethereum address." rfl⟩

/-- C8: with no usable credential (the environment variable absent or
empty, both falsy), `analyzeContractWithGemini` fails with the
configuration error and sends no request: the run records no call
parts. -/
theorem C8_credential_gate : ∀ (apiKey : Option String) (code : String)
    (wp : Option WhitepaperPayload) (rej : Option String) (txt : String),
    jsTruthy apiKey = false →
    analyzeContractWithGemini apiKey code wp rej txt =
      { result := .error "API_KEY environment variable not set",
        callParts := none, log := [] } := by
  intro k c w rj t h
  simp [analyzeContractWithGemini, h]

/-- C8 witness: with the credential absent, the run is exactly the
configuration failure with no call. -/
theorem C8_witness :
    analyzeContractWithGemini none "contract Demo" none none "" =
      { result := .error "API_KEY environment variable not set",
        callParts := none, log := [] } :=
  C8_credential_gate none "contract Demo" none none "" rfl

/-- C9: every unparseable response text produces the same fixed
user-visible message — so the message does not depend on the raw text —
while the raw text is kept in the diagnostic log only. -/
theorem C9_fixed_error_message : ∀ t1 t2 : String,
    jsonParse (jsTrim t1) = none → jsonParse (jsTrim t2) = none →
    (validateResponse t1).result = .error invalidResponseMessage ∧
    (validateResponse t2).result = .error invalidResponseMessage ∧
    (validateResponse t1).result = (validateResponse t2).result ∧
    (validateResponse t1).log = ["Failed to parse Gemini response:", t1] ∧
    (validateResponse t2).log = ["Failed to parse Gemini response:", t2] := by
  intro t1 t2 h1 h2
  simp [validateResponse, h1, h2]

/-- C9 witness: two different malformed texts yield identical fixed
user-visible messages, with the raw texts only in the logs. -/
theorem C9_witness :
    (validateResponse "not json").result = .error invalidResponseMessage ∧
    (validateResponse "<oops>").result = .error invalidResponseMessage ∧
    (validateResponse "not json").result = (validateResponse "<oops>").result ∧
    (validateResponse "not json").log =
      ["Failed to parse Gemini response:", "not json"] ∧
    (validateResponse "<oops>").log =
      ["Failed to parse Gemini response:", "<oops>"] :=
  C9_fixed_error_message "not json" "<oops>" rfl rfl

/-- C10: replacing a whitepaper file name by its lowercased form never
changes the classification outcome (payload or rejection), so extension
matching is case-insensitive; `REPORT.PDF` is classified as PDF; and the
declared MIME type is compared case-sensitively, as an upper-cased PDF
MIME type is rejected where the exact one is accepted. -/
theorem C10_case_insensitive_extension :
    (∀ f : JsFile,
      exceptToOption
          (buildWhitepaperPayload (some { f with name := jsToLowerCase f.name })) =
        exceptToOption (buildWhitepaperPayload (some f))) ∧
    buildWhitepaperPayload (some fileReportPdfUpper) =
      .ok (some { data := some "QQ==", mimeType := "application/pdf",
                  isText := false }) ∧
    exceptToOption (buildWhitepaperPayload (some fileUpperMime)) ≠
      exceptToOption (buildWhitepaperPayload (some fileLowerMime)) := by
  refine ⟨?_, rfl, by decide⟩
  intro f
  simp only [buildWhitepaperPayload]
  rw [isTextWp_lowerName, isPdfWp_lowerName, isDocxWp_lowerName]
  by_cases h1 : isTextWp f <;> by_cases h2 : isPdfWp f <;>
    by_cases h3 : isDocxWp f <;> simp [h1, h2, h3, exceptToOption]

end ContractAnalyzer
